import Mathlib

/-!
Shallow embedding of the AvAtom input-validation and SCF-loop code
(`src/AvAtom/check_inputs.py`, `src/AvAtom/models.py`) together with
proofs checking the natural-language specification against it.

Conventions of the embedding:
* Python floats are modelled as exact rationals (`ℚ`) where the code only
  adds, multiplies and compares, and as real numbers (`ℝ`) where the code
  takes cube roots or multiplies by π (the radius/density conversions).
* Python functions that terminate the process through `InputError.*` are
  modelled as functions into `Except InputErr _`.
* `print`ed warnings (class `InputWarning`) are modelled as an explicit
  list of warning tags in the result, so that "warns but proceeds" is
  visible in the return value.
* Module-level constants of `unitconv.py` and `config.py` (which are not
  part of the sources under verification) are passed as explicit
  parameters; theorems quantify over them, and closed statements
  instantiate them with representative positive values.
-/

/-- Error categories mirroring the methods of `class InputError` in
`check_inputs.py`; each carries the message string the source prints. -/
inductive InputErr where
  | speciesError (msg : String)
  | tempError (msg : String)
  | chargeError
  | densityError (msg : String)
  | spinmagError (msg : String)
  | xcError (msg : String)
  | unboundError (msg : String)
  | bcError (msg : String)
  | spinpolError (msg : String)
  | gridError (msg : String)
  | convError (msg : String)
  | scfError (msg : String)
  deriving DecidableEq, Repr

/-- Warning tags mirroring `class InputWarning` in `check_inputs.py`. -/
inductive InputWarn where
  | tempWarning (err : String)
  | ngridWarning (err1 err2 : String)
  deriving DecidableEq, Repr

/-- ASCII model of Python's `str.lower()` on a single character (all the
strings the validators compare against are ASCII). -/
def lowerChar (c : Char) : Char :=
  if c.isUpper then Char.ofNat (c.toNat + 32) else c

/-- ASCII model of Python's `str.lower()`. -/
def strLower (s : String) : String := ⟨s.data.map lowerChar⟩

/-! ## Temperature validation (`Atom.check_units_temp`, `Atom.check_temp`) -/

/-- Embedding of `Atom.check_units_temp`: the accepted unit strings are
exactly `"ha"`, `"ev"`, `"k"` after lowercasing; anything else raises
`InputError.temp_error`. -/
def check_units_temp (units_temp : String) : Except InputErr String :=
  if strLower units_temp = "ha" ∨ strLower units_temp = "ev" ∨ strLower units_temp = "k" then
    Except.ok (strLower units_temp)
  else Except.error (InputErr.tempError "units of temperature are not recognised")

/-- Embedding of the unit-conversion step of `Atom.check_temp` (the
type-check on `temp` is carried by the type `ℚ`): eV and Kelvin inputs are
scaled to hartree by the factors `ev_to_ha` and `K_to_ha` of `unitconv.py`
(passed as parameters); any other unit leaves the value unchanged. -/
def convert_temp (ev_to_ha K_to_ha : ℚ) (temp : ℚ) (units_temp : String) : ℚ :=
  if strLower units_temp = "ev" then ev_to_ha * temp
  else if strLower units_temp = "k" then K_to_ha * temp
  else temp

/-- Embedding of the rest of `Atom.check_temp`: rejects a negative converted
value and attaches the advisory warnings. -/
def check_temp (ev_to_ha K_to_ha : ℚ) (temp : ℚ) (units_temp : String) :
    Except InputErr (ℚ × List InputWarn) :=
  let t := convert_temp ev_to_ha K_to_ha temp units_temp
  if t < 0 then Except.error (InputErr.tempError "temperature is negative")
  else if t < 1/100 then Except.ok (t, [InputWarn.tempWarning "low"])
  else if t > 7/2 then Except.ok (t, [InputWarn.tempWarning "high"])
  else Except.ok (t, [])

/-! ## Spin magnetization (`ISModel.check_spinmag`) -/

/-- Embedding of `ISModel.check_spinmag` (the `isinstance` integer check is
carried by the type `ℤ`): `-1` means auto-assignment (0 for even `nele`,
1 for odd), a value `> -1` must match the parity of `nele`, and anything
below `-1` is rejected. -/
def check_spinmag (spinmag : ℤ) (nele : ℤ) : Except InputErr ℤ :=
  if spinmag = -1 then
    if nele % 2 = 0 then Except.ok 0 else Except.ok 1
  else if spinmag > -1 then
    if nele % 2 = 0 ∧ spinmag % 2 ≠ 0 then
      Except.error (InputErr.spinmagError
        "Spin magnetization is not compatible with total electron number")
    else if nele % 2 ≠ 0 ∧ spinmag % 2 = 0 then
      Except.error (InputErr.spinmagError
        "Spin magnetization is not compatible with total electron number")
    else Except.ok spinmag
  else
    Except.error (InputErr.spinmagError "Spin magnetization is not a positive integer")

/-! ## Boundary condition and unbound treatment (`ISModel.check_bc`,
`ISModel.check_unbound`)

The source calls `bc.lower()` (resp. `unbound.lower()`) but discards the
result — Python strings are immutable and the return value is not
assigned — so the membership test runs on the original string. The
embedding reproduces that: the lowercased string is bound to a local that
is then unused, exactly as in the source. -/

/-- Embedding of `ISModel.check_bc`: membership of the ORIGINAL string in
`["dirichlet", "neumann"]` (the `bc.lower()` result is discarded in the
source, and `isinstance("bc", str)` is vacuously true). -/
def check_bc (bc : String) : Except InputErr String :=
  let _lowered := strLower bc
  if bc = "dirichlet" ∨ bc = "neumann" then Except.ok bc
  else Except.error (InputErr.bcError "Boundary condition is not recognised.")

/-- Embedding of `ISModel.check_unbound`: membership of the ORIGINAL string
in `["ideal"]` (the `unbound.lower()` result is discarded in the source). -/
def check_unbound (unbound : String) : Except InputErr String :=
  let _lowered := strLower unbound
  if unbound = "ideal" then Except.ok unbound
  else Except.error (InputErr.unboundError "Treatment of unbound electrons not recognised.")

/-! ## Grid, convergence and SCF parameters (`EnergyCalcs`) -/

/-- Embedding of `EnergyCalcs.check_grid_params`. Missing keys are filled
from the process-wide defaults (`config.grid_params`, passed as the
parameter `dflt = (ngrid, x0)`). The source then rejects `ngrid < 0`
(its comment and error message say "positive", but the test is `< 0`),
prints a warning for `ngrid < 500` or `ngrid > 5000`, and rejects
`x0 > -3`. -/
def check_grid_params (dflt : ℤ × ℚ) (ngrid? : Option ℤ) (x0? : Option ℚ) :
    Except InputErr ((ℤ × ℚ) × List InputWarn) :=
  let ngrid := ngrid?.getD dflt.1
  let x0 := x0?.getD dflt.2
  if ngrid < 0 then
    Except.error (InputErr.gridError "Number of grid points must be positive")
  else
    let warns :=
      if ngrid < 500 then [InputWarn.ngridWarning "low" "inaccurate"]
      else if ngrid > 5000 then [InputWarn.ngridWarning "high" "expensive"]
      else []
    if x0 > -3 then
      Except.error (InputErr.gridError "x0 is too high, calculation will likely not converge")
    else Except.ok ((ngrid, x0), warns)

/-- Embedding of `EnergyCalcs.check_conv_params`: each of `econv`, `nconv`,
`vconv` is defaulted from `config.conv_params` (parameter `dflt`) when
missing, then rejected when negative (the float type check is carried by
`ℚ`). -/
def check_conv_params (dflt : ℚ × ℚ × ℚ) (econv? nconv? vconv? : Option ℚ) :
    Except InputErr (ℚ × ℚ × ℚ) :=
  let econv := econv?.getD dflt.1
  let nconv := nconv?.getD dflt.2.1
  let vconv := vconv?.getD dflt.2.2
  if econv < 0 then Except.error (InputErr.convError "econv cannot be negative")
  else if nconv < 0 then Except.error (InputErr.convError "nconv cannot be negative")
  else if vconv < 0 then Except.error (InputErr.convError "vconv cannot be negative")
  else Except.ok (econv, nconv, vconv)

/-- Embedding of `EnergyCalcs.check_scf_params`: `maxscf` and `mixfrac` are
defaulted from `config.scf_params` (parameter `dflt`) when missing;
`maxscf` must be an integer at least 1 and `mixfrac` a float in `[0, 1]`. -/
def check_scf_params (dflt : ℤ × ℚ) (maxscf? : Option ℤ) (mixfrac? : Option ℚ) :
    Except InputErr (ℤ × ℚ) :=
  let maxscf := maxscf?.getD dflt.1
  let mixfrac := mixfrac?.getD dflt.2
  if maxscf < 1 then Except.error (InputErr.scfError "maxscf must be at least 1")
  else if mixfrac < 0 ∨ mixfrac > 1 then
    Except.error (InputErr.scfError "mixfrac must be in range [0,1]")
  else Except.ok (maxscf, mixfrac)

/-- Embedding of the parameter-processing prologue of `ISModel.CalcEnergy`
(models.py lines 148-156): grid and convergence parameters are validated
through `check_grid_params` and `check_conv_params`, but the line that
would validate the caller's `scf_params` through
`EnergyCalcs.check_scf_params` is COMMENTED OUT in the source, so the
`scf_params` argument is ignored and the loop later reads the pre-existing
`config.scf_params` (parameter `cfg_scf`) unvalidated. -/
def CalcEnergy_setup (cfg_grid : ℤ × ℚ) (cfg_conv : ℚ × ℚ × ℚ) (cfg_scf : ℤ × ℚ)
    (grid_arg : Option ℤ × Option ℚ) (conv_arg : Option ℚ × Option ℚ × Option ℚ)
    (_scf_arg : Option ℤ × Option ℚ) :
    Except InputErr (((ℤ × ℚ) × List InputWarn) × (ℚ × ℚ × ℚ) × (ℤ × ℚ)) := do
  let g ← check_grid_params cfg_grid grid_arg.1 grid_arg.2
  let c ← check_conv_params cfg_conv conv_arg.1 conv_arg.2.1 conv_arg.2.2
  pure (g, c, cfg_scf)

/-! ## Radius and density (`Atom.radius_to_dens`, `Atom.dens_to_radius`,
`Atom.check_rad_dens_init`)

These work over `ℝ` (cube root and π appear). The `unitconv.py` constants
`angstrom_to_bohr`, `cm_to_bohr` and the `config.py` constant `mp_g`
(atomic-mass-unit mass in grams) are parameters `ang`, `cm`, `mp`; the
atom's mass `atom.at_mass` is the parameter `at_mass`. -/

open Real in
/-- Embedding of `Atom.radius_to_dens`: converts the radius to cm, forms
the sphere volume `4π r³ / 3`, and divides the atomic mass in grams by
it. -/
noncomputable def radius_to_dens (mp cm at_mass radius : ℝ) : ℝ :=
  let rad_cm := radius / cm
  let vol_cm := (4 * π * rad_cm ^ 3) / 3
  let mass_g := mp * at_mass
  mass_g / vol_cm

open Real in
/-- Embedding of `Atom.dens_to_radius`: volume in cm³ is mass over density,
the cm radius is the cube root `(3 vol / 4π) ** (1/3)`, converted back to
atomic units. -/
noncomputable def dens_to_radius (mp cm at_mass density : ℝ) : ℝ :=
  let mass_g := mp * at_mass
  let vol_cm := mass_g / density
  let rad_cm := (3 * vol_cm / (4 * π)) ^ ((1 : ℝ) / 3)
  rad_cm * cm

/-- Embedding of the radius unit conversion at the top of
`Atom.check_rad_dens_init`: an angstrom-unit radius is scaled to bohr by
the `unitconv.py` factor (parameter `ang`); note the source converts
BEFORE testing the `-1` sentinel. -/
noncomputable def conv_radius (ang : ℝ) (radius : ℝ) (units_radius : String) : ℝ :=
  if units_radius = "angstrom" ∨ units_radius = "ang" then ang * radius else radius

/-- Embedding of `Atom.check_rad_dens_init`: after the unit conversion,
the four-way case split of the source on the sentinel `-1` (value supplied
or not), with the bound checks and derivations exactly as written there. -/
noncomputable def check_rad_dens_init (ang mp cm at_mass : ℝ)
    (radius density : ℝ) (units_radius : String) : Except InputErr (ℝ × ℝ) :=
  let r := conv_radius ang radius units_radius
  if density = -1 ∧ r ≠ -1 then
    if r < 1/10 then
      Except.error (InputErr.densityError "Radius must be a positive number greater than 0.1")
    else Except.ok (r, radius_to_dens mp cm at_mass r)
  else if r = -1 ∧ density ≠ -1 then
    if density > 100 ∨ density < 0 then
      Except.error (InputErr.densityError "Density must be a positive number less than 100")
    else Except.ok (dens_to_radius mp cm at_mass density, density)
  else if r ≠ -1 ∧ density ≠ -1 then
    if |(radius_to_dens mp cm at_mass r - density) / density| > 5/100 then
      Except.error (InputErr.densityError
        "Both radius and density are specified but they are not compatible")
    else Except.ok (r, radius_to_dens mp cm at_mass r)
  else
    Except.error (InputErr.densityError "One of radius or density must be specified")

/-! ## The SCF loop of `ISModel.CalcEnergy` (models.py lines 174-217)

The numerical collaborators (`staticKS.Density`, `staticKS.Potential`,
`staticKS.Energy`, `orbs.compute`/`orbs.occupy`, `convergence.SCF`) are
external to the verified sources, so the loop is embedded parametrically:
`O` is the type of the orbital object, `D` of densities, `C` of the
convergence tracker's internal state, and the potential array is modelled
by `ℚ` (the mixing arithmetic acts elementwise on the numpy array, so a
single component carries the formula). One `scfStep` is the body of
`for iscf in range(config.scf_params["maxscf"])`, and `scfLoop` is the
loop with its early `break` on `conv_vals["complete"]`. -/

/-- State carried across SCF iterations: the orbital object, the tracker
state, `v_s_old`, the last free energy, the `complete` flag of the last
tracker evaluation, and instrumentation counters for executed iterations
and tracker evaluations. -/
structure SCFState (O C : Type) where
  orbs : O
  convSt : C
  vsOld : ℚ
  lastE : ℚ
  converged : Bool
  itersDone : ℕ
  convEvals : ℕ
  deriving DecidableEq, Repr

/-- One body execution of the SCF loop at iteration index `i`: build the
density, potential and free energy, mix the potential when `i > 1`
(`v_s = mixfrac * pot + (1 - mixfrac) * v_s_old`, else the raw `pot`),
update the orbitals with the mixed potential, store it as `v_s_old`, and
evaluate the convergence tracker on `(E_free, v_s, rho, i)`. -/
def scfStep {O D C : Type} (dens : O → D) (potv : D → ℚ) (energyF : O → D → ℚ)
    (compute : O → ℚ → O) (convCheck : C → ℚ → ℚ → D → ℕ → C × Bool)
    (mixfrac : ℚ) (i : ℕ) (s : SCFState O C) : SCFState O C :=
  let rho := dens s.orbs
  let pot := potv rho
  let E := energyF s.orbs rho
  let vs := if i > 1 then mixfrac * pot + (1 - mixfrac) * s.vsOld else pot
  let orbs2 := compute s.orbs vs
  let res := convCheck s.convSt E vs rho i
  { orbs := orbs2, convSt := res.1, vsOld := vs, lastE := E, converged := res.2,
    itersDone := s.itersDone + 1, convEvals := s.convEvals + 1 }

/-- The SCF loop: at most `n` further iterations starting at index `i`,
breaking as soon as the tracker's `complete` flag is set. -/
def scfLoop {O D C : Type} (dens : O → D) (potv : D → ℚ) (energyF : O → D → ℚ)
    (compute : O → ℚ → O) (convCheck : C → ℚ → ℚ → D → ℕ → C × Bool)
    (mixfrac : ℚ) : ℕ → ℕ → SCFState O C → SCFState O C
  | _, 0, s => s
  | i, n + 1, s =>
    let s2 := scfStep dens potv energyF compute convCheck mixfrac i s
    if s2.converged then s2
    else scfLoop dens potv energyF compute convCheck mixfrac (i + 1) n s2

/-- The `for iscf in range(maxscf)` loop of `ISModel.CalcEnergy`, starting
from the post-initialization state `s0`; a total function, so the run
always terminates and yields a final state (converged or not) for the
report emitter. -/
def CalcEnergy_run {O D C : Type} (dens : O → D) (potv : D → ℚ) (energyF : O → D → ℚ)
    (compute : O → ℚ → O) (convCheck : C → ℚ → ℚ → D → ℕ → C × Bool)
    (mixfrac : ℚ) (maxscf : ℕ) (s0 : SCFState O C) : SCFState O C :=
  scfLoop dens potv energyF compute convCheck mixfrac 0 maxscf s0

/-! ## Helper lemmas for `check_spinmag` -/

/-- Auto-assignment branch of `check_spinmag`: sentinel `-1` yields 0 for
even and 1 for odd electron number. -/
theorem check_spinmag_auto (N : ℤ) :
    check_spinmag (-1) N = Except.ok (if N % 2 = 0 then 0 else 1) := by
  unfold check_spinmag
  rw [if_pos rfl]
  split <;> rfl

/-- Explicit branch of `check_spinmag`: a non-negative value with matching
parity is returned unchanged. -/
theorem check_spinmag_ok_of_parity (m N : ℤ) (h0 : 0 ≤ m) (hp : m % 2 = N % 2) :
    check_spinmag m N = Except.ok m := by
  unfold check_spinmag
  rw [if_neg (by omega), if_pos (by omega), if_neg (by omega), if_neg (by omega)]

/-- Explicit branch of `check_spinmag`: a non-negative value with the wrong
parity raises `spinmag_error`. -/
theorem check_spinmag_err_parity (m N : ℤ) (h0 : 0 ≤ m) (hp : m % 2 ≠ N % 2) :
    check_spinmag m N = Except.error (InputErr.spinmagError
      "Spin magnetization is not compatible with total electron number") := by
  unfold check_spinmag
  rw [if_neg (by omega), if_pos (by omega)]
  split_ifs with ha hb
  · rfl
  · rfl
  · exfalso
    have h2N := Int.emod_two_eq_zero_or_one N
    have h2m := Int.emod_two_eq_zero_or_one m
    omega

/-- Explicit branch of `check_spinmag`: a value below `-1` raises
`spinmag_error`. -/
theorem check_spinmag_err_neg (m N : ℤ) (h : m < -1) :
    check_spinmag m N = Except.error (InputErr.spinmagError
      "Spin magnetization is not a positive integer") := by
  unfold check_spinmag
  rw [if_neg (by omega), if_neg (by omega)]

/-- C5: spin validation succeeds iff the magnetization is the sentinel `-1`
(auto-assigned to 0 for even and 1 for odd electron count) or a
non-negative integer of the same parity as the electron count; every
success satisfies `(N - m) % 2 = 0`, and a parity mismatch or a negative
value other than `-1` fails with `spinmag_error` instead of being silently
corrected. -/
theorem check_spinmag_spec (m N : ℤ) :
    ((∃ r, check_spinmag m N = Except.ok r) ↔ (m = -1 ∨ (0 ≤ m ∧ m % 2 = N % 2)))
    ∧ (m = -1 → check_spinmag m N = Except.ok (if N % 2 = 0 then 0 else 1))
    ∧ (0 ≤ m → m % 2 = N % 2 → check_spinmag m N = Except.ok m)
    ∧ (0 ≤ m → m % 2 ≠ N % 2 → check_spinmag m N = Except.error (InputErr.spinmagError
        "Spin magnetization is not compatible with total electron number"))
    ∧ (m < -1 → check_spinmag m N = Except.error (InputErr.spinmagError
        "Spin magnetization is not a positive integer"))
    ∧ (∀ r, check_spinmag m N = Except.ok r → (N - r) % 2 = 0) := by
  refine ⟨⟨fun ⟨r, hr⟩ => ?_, fun h => ?_⟩, fun h => h ▸ check_spinmag_auto N,
    check_spinmag_ok_of_parity m N, check_spinmag_err_parity m N,
    check_spinmag_err_neg m N, fun r hr => ?_⟩
  · by_contra hc
    push_neg at hc
    obtain ⟨h1, h2⟩ := hc
    rcases lt_trichotomy m (-1) with hlt | heq | hgt
    · rw [check_spinmag_err_neg m N hlt] at hr
      exact Except.noConfusion hr
    · exact h1 heq
    · have h0 : 0 ≤ m := by omega
      have hp : m % 2 ≠ N % 2 := fun hp => h2 h0 hp
      rw [check_spinmag_err_parity m N h0 hp] at hr
      exact Except.noConfusion hr
  · rcases h with heq | ⟨h0, hp⟩
    · exact ⟨_, heq ▸ check_spinmag_auto N⟩
    · exact ⟨m, check_spinmag_ok_of_parity m N h0 hp⟩
  · rcases lt_trichotomy m (-1) with hlt | heq | hgt
    · rw [check_spinmag_err_neg m N hlt] at hr
      exact Except.noConfusion hr
    · subst heq
      rw [check_spinmag_auto N] at hr
      have hr2 : r = if N % 2 = 0 then 0 else 1 := by
        cases hr
        rfl
      have h2N := Int.emod_two_eq_zero_or_one N
      split at hr2 <;> omega
    · by_cases hp : m % 2 = N % 2
      · rw [check_spinmag_ok_of_parity m N (by omega) hp] at hr
        have hr2 : r = m := by
          cases hr
          rfl
        omega
      · rw [check_spinmag_err_parity m N (by omega) hp] at hr
        exact Except.noConfusion hr

/-- Witness for `check_spinmag_spec`: at `m = 2`, `N = 5` (the spec's
scenario) validation fails with the parity error, and at the sentinel with
`N = 5` it succeeds with magnetization 1, satisfying the parity
invariant. -/
theorem check_spinmag_spec_witness :
    check_spinmag 2 5 = Except.error (InputErr.spinmagError
      "Spin magnetization is not compatible with total electron number")
    ∧ ((5 : ℤ) - 1) % 2 = 0 := by
  constructor
  · exact (check_spinmag_spec 2 5).2.2.2.1 (by decide) (by decide)
  · exact (check_spinmag_spec (-1) 5).2.2.2.2.2 1 (by unfold check_spinmag; norm_num)

/-- C9: the source of `ISModel.check_bc` and `ISModel.check_unbound` calls
`.lower()` but discards the result, so the case-insensitive acceptance the
spec describes does not happen: `"Dirichlet"` and `"Ideal"` are rejected
while their lowercase forms are accepted. -/
theorem check_bc_unbound_case_sensitivity_bug :
    check_bc "Dirichlet" = Except.error (InputErr.bcError "Boundary condition is not recognised.")
    ∧ check_bc "dirichlet" = Except.ok "dirichlet"
    ∧ check_bc "neumann" = Except.ok "neumann"
    ∧ check_unbound "Ideal" = Except.error
        (InputErr.unboundError "Treatment of unbound electrons not recognised.")
    ∧ check_unbound "ideal" = Except.ok "ideal" := by
  refine ⟨?_, ?_, ?_, ?_, ?_⟩ <;> rfl

/-- C8: `check_grid_params` accepts `ngrid = 0` — the source tests
`ngrid < 0` although its own comment and error message demand a positive
count — emitting only the "low" warning; the other spec'd behaviors
(default fill, strict `x0 > -3` rejection, soft warnings) are as
documented. -/
theorem check_grid_params_zero_ngrid_bug :
    check_grid_params (1000, -4) (some 0) (some (-4))
      = Except.ok ((0, -4), [InputWarn.ngridWarning "low" "inaccurate"])
    ∧ ¬ (0 < (0 : ℤ))
    ∧ check_grid_params (1000, -4) none none = Except.ok ((1000, -4), [])
    ∧ check_grid_params (1000, -4) (some 600) (some (-2))
      = Except.error (InputErr.gridError "x0 is too high, calculation will likely not converge")
    ∧ check_grid_params (1000, -4) (some (-7)) none
      = Except.error (InputErr.gridError "Number of grid points must be positive")
    ∧ check_grid_params (1000, -4) (some 6000) none
      = Except.ok ((6000, -4), [InputWarn.ngridWarning "high" "expensive"]) := by
  refine ⟨?_, by norm_num, ?_, ?_, ?_, ?_⟩ <;> rfl

/-- C6: in `ISModel.CalcEnergy` the line that would validate the caller's
`scf_params` through `EnergyCalcs.check_scf_params` is commented out, so an
invalid `maxscf = 0` in the argument raises nothing — the setup succeeds
and the loop uses the pre-existing `config.scf_params` value `(50, 1/2)` —
even though `check_scf_params` itself would reject that argument. -/
theorem CalcEnergy_scf_params_unvalidated_bug :
    CalcEnergy_setup (1000, -4) (1, 1, 1) (50, 1)
        (none, none) (none, none, none) (some 0, none)
      = Except.ok (((1000, -4), []), (1, 1, 1), (50, 1))
    ∧ check_scf_params (50, 1) (some 0) none
      = Except.error (InputErr.scfError "maxscf must be at least 1") := by
  refine ⟨?_, ?_⟩ <;> rfl

/-- C10, counterexample: the unit allow-list of `Atom.check_units_temp` is
`{"ha", "ev", "k"}`, so the full word `"hartree"` (which the claim says is
accepted case-insensitively) is rejected — and with the generic
`temp_error`, the source having no separate `UnitError`. -/
theorem check_units_temp_hartree_rejected :
    check_units_temp "hartree"
      = Except.error (InputErr.tempError "units of temperature are not recognised")
    ∧ check_units_temp "kelvin"
      = Except.error (InputErr.tempError "units of temperature are not recognised")
    ∧ check_units_temp "Ha" = Except.ok "ha" := by
  refine ⟨?_, ?_, ?_⟩ <;> rfl

/-- C10, amended: unit validation succeeds exactly on strings that lower to
`"ha"`, `"ev"` or `"k"`, failing with the temperature-category error
otherwise; temperature validation rejects a negative converted value with
the temperature-category error, and otherwise returns the value converted
to hartree, attaching only a non-fatal low/high warning when the converted
value lies below 1/100 or above 7/2 — the value is returned either way. -/
theorem check_temp_spec (ev_to_ha K_to_ha temp : ℚ) (u : String) :
    ((check_units_temp u).isOk = true ↔
      (strLower u = "ha" ∨ strLower u = "ev" ∨ strLower u = "k"))
    ∧ (¬ (strLower u = "ha" ∨ strLower u = "ev" ∨ strLower u = "k") →
        check_units_temp u
          = Except.error (InputErr.tempError "units of temperature are not recognised"))
    ∧ (convert_temp ev_to_ha K_to_ha temp u < 0 →
        check_temp ev_to_ha K_to_ha temp u
          = Except.error (InputErr.tempError "temperature is negative"))
    ∧ (0 ≤ convert_temp ev_to_ha K_to_ha temp u →
        check_temp ev_to_ha K_to_ha temp u
          = Except.ok (convert_temp ev_to_ha K_to_ha temp u,
              if convert_temp ev_to_ha K_to_ha temp u < 1/100 then [InputWarn.tempWarning "low"]
              else if convert_temp ev_to_ha K_to_ha temp u > 7/2 then [InputWarn.tempWarning "high"]
              else [])) := by
  refine ⟨?_, ?_, ?_, ?_⟩
  · unfold check_units_temp
    by_cases h : strLower u = "ha" ∨ strLower u = "ev" ∨ strLower u = "k" <;>
      simp [h, Except.isOk, Except.toBool]
  · intro h
    unfold check_units_temp
    rw [if_neg h]
  · intro h
    unfold check_temp
    rw [if_pos h]
  · intro h
    unfold check_temp
    rw [if_neg (not_lt.2 h)]
    split_ifs <;> rfl

/-- Witness for `check_temp_spec`: at the eV-to-hartree factor 1/27,
temperature 27 eV converts to 1 hartree with no warning, and temperature
-27 eV is rejected as negative. -/
theorem check_temp_spec_witness :
    check_temp (1/27) 1 27 "eV" = Except.ok (1, [])
    ∧ check_temp (1/27) 1 (-27) "eV"
      = Except.error (InputErr.tempError "temperature is negative") := by
  have hev : strLower "eV" = "ev" := rfl
  have hc1 : convert_temp (1/27) 1 27 "eV" = 1 := by
    unfold convert_temp
    rw [if_pos hev]
    norm_num
  have hc2 : convert_temp (1/27) 1 (-27) "eV" = -1 := by
    unfold convert_temp
    rw [if_pos hev]
    norm_num
  constructor
  · have h := (check_temp_spec (1/27) 1 27 "eV").2.2.2 (by rw [hc1]; norm_num)
    rw [h, hc1]
    norm_num
  · exact (check_temp_spec (1/27) 1 (-27) "eV").2.2.1 (by rw [hc2]; norm_num)

/-! ## SCF loop lemmas -/

section SCFLoop

variable {O D C : Type} (dens : O → D) (potv : D → ℚ) (energyF : O → D → ℚ)
  (compute : O → ℚ → O) (convCheck : C → ℚ → ℚ → D → ℕ → C × Bool) (mixfrac : ℚ)

/-- Each loop pass increments the iteration counter by at most one per unit
of budget: the loop body runs no more than `n` times. -/
theorem scfLoop_itersDone_le (n : ℕ) : ∀ (i : ℕ) (s : SCFState O C),
    (scfLoop dens potv energyF compute convCheck mixfrac i n s).itersDone
      ≤ s.itersDone + n := by
  induction n with
  | zero => intro i s; simp [scfLoop]
  | succ k ih =>
    intro i s
    rw [scfLoop]
    split
    · simp [scfStep]
    · calc (scfLoop dens potv energyF compute convCheck mixfrac (i + 1) k
            (scfStep dens potv energyF compute convCheck mixfrac i s)).itersDone
          ≤ (scfStep dens potv energyF compute convCheck mixfrac i s).itersDone + k :=
            ih (i + 1) _
        _ = s.itersDone + 1 + k := by simp [scfStep]
        _ ≤ s.itersDone + (k + 1) := by omega

/-- The convergence tracker is evaluated exactly once per executed loop
body, so its evaluation counter grows by at most the budget. -/
theorem scfLoop_convEvals_le (n : ℕ) : ∀ (i : ℕ) (s : SCFState O C),
    (scfLoop dens potv energyF compute convCheck mixfrac i n s).convEvals
      ≤ s.convEvals + n := by
  induction n with
  | zero => intro i s; simp [scfLoop]
  | succ k ih =>
    intro i s
    rw [scfLoop]
    split
    · simp [scfStep]
    · calc (scfLoop dens potv energyF compute convCheck mixfrac (i + 1) k
            (scfStep dens potv energyF compute convCheck mixfrac i s)).convEvals
          ≤ (scfStep dens potv energyF compute convCheck mixfrac i s).convEvals + k :=
            ih (i + 1) _
        _ = s.convEvals + 1 + k := by simp [scfStep]
        _ ≤ s.convEvals + (k + 1) := by omega

/-- If the step at index `i` reports convergence, the loop stops there:
its result is that step's state, with no further iteration. -/
theorem scfLoop_early_exit (i n : ℕ) (s : SCFState O C)
    (h : (scfStep dens potv energyF compute convCheck mixfrac i s).converged = true) :
    scfLoop dens potv energyF compute convCheck mixfrac i (n + 1) s
      = scfStep dens potv energyF compute convCheck mixfrac i s := by
  rw [scfLoop]
  simp [h]

/-- If the tracker never reports convergence, the loop spends its whole
budget — exactly `n` more iterations — and ends not converged (unless the
budget is zero, in which case the state is returned unchanged). -/
theorem scfLoop_never_conv
    (hc : ∀ c E v ρ j, (convCheck c E v ρ j).2 = false) (n : ℕ) :
    ∀ (i : ℕ) (s : SCFState O C),
    (scfLoop dens potv energyF compute convCheck mixfrac i n s).itersDone
        = s.itersDone + n
    ∧ (scfLoop dens potv energyF compute convCheck mixfrac i n s).converged
        = (if n = 0 then s.converged else false) := by
  induction n with
  | zero => intro i s; simp [scfLoop]
  | succ k ih =>
    intro i s
    have hstep : (scfStep dens potv energyF compute convCheck mixfrac i s).converged = false := by
      simp [scfStep, hc]
    rw [scfLoop]
    simp only [hstep, Bool.false_eq_true, if_false]
    obtain ⟨h1, h2⟩ := ih (i + 1) (scfStep dens potv energyF compute convCheck mixfrac i s)
    refine ⟨?_, ?_⟩
    · rw [h1]
      simp [scfStep]
      omega
    · rw [h2]
      split
      · exact hstep
      · rfl

end SCFLoop

/-- C1: the SCF loop of `ISModel.CalcEnergy` executes at most `maxscf`
iterations and hence at most `maxscf + 1` tracker evaluations; it exits as
soon as a step reports convergence; and when the tracker never reports
convergence it runs exactly `maxscf` iterations and still returns a final
state, with the converged flag false — the embedding is a total function,
so no error is raised on the unconverged path. -/
theorem CalcEnergy_scf_termination {O D C : Type} (dens : O → D) (potv : D → ℚ)
    (energyF : O → D → ℚ) (compute : O → ℚ → O)
    (convCheck : C → ℚ → ℚ → D → ℕ → C × Bool) (mixfrac : ℚ)
    (maxscf : ℕ) (s0 : SCFState O C)
    (h0i : s0.itersDone = 0) (h0c : s0.convEvals = 0) :
    (CalcEnergy_run dens potv energyF compute convCheck mixfrac maxscf s0).itersDone ≤ maxscf
    ∧ (CalcEnergy_run dens potv energyF compute convCheck mixfrac maxscf s0).convEvals
        ≤ maxscf + 1
    ∧ (∀ (i n : ℕ) (s : SCFState O C),
        (scfStep dens potv energyF compute convCheck mixfrac i s).converged = true →
        scfLoop dens potv energyF compute convCheck mixfrac i (n + 1) s
          = scfStep dens potv energyF compute convCheck mixfrac i s)
    ∧ ((∀ c E v ρ j, (convCheck c E v ρ j).2 = false) → s0.converged = false →
        (CalcEnergy_run dens potv energyF compute convCheck mixfrac maxscf s0).itersDone
            = maxscf
        ∧ (CalcEnergy_run dens potv energyF compute convCheck mixfrac maxscf s0).converged
            = false) := by
  refine ⟨?_, ?_, ?_, fun hc h0conv => ?_⟩
  · have h := scfLoop_itersDone_le dens potv energyF compute convCheck mixfrac maxscf 0 s0
    rw [h0i] at h
    simpa [CalcEnergy_run] using h
  · have h := scfLoop_convEvals_le dens potv energyF compute convCheck mixfrac maxscf 0 s0
    rw [h0c] at h
    have : (scfLoop dens potv energyF compute convCheck mixfrac 0 maxscf s0).convEvals
        ≤ maxscf := by simpa using h
    simpa [CalcEnergy_run] using Nat.le_succ_of_le this
  · exact fun i n s h => scfLoop_early_exit dens potv energyF compute convCheck mixfrac i n s h
  · obtain ⟨h1, h2⟩ :=
      scfLoop_never_conv dens potv energyF compute convCheck mixfrac hc maxscf 0 s0
    refine ⟨?_, ?_⟩
    · rw [CalcEnergy_run, h1, h0i]
      omega
    · rw [CalcEnergy_run, h2]
      split
      · exact h0conv
      · rfl

/-- Witness for `CalcEnergy_scf_termination`: with trivial collaborators, a
tracker that never converges, and a budget of 3 (the spec's scenario), the
run performs exactly 3 iterations and returns with the converged flag
false. -/
theorem CalcEnergy_scf_termination_witness :
    (CalcEnergy_run (fun _ : Unit => ()) (fun _ => (0 : ℚ)) (fun _ _ => 0) (fun _ _ => ())
        (fun (c : Unit) _ _ _ _ => (c, false)) 0 3
        ⟨(), (), 0, 0, false, 0, 0⟩).itersDone = 3
    ∧ (CalcEnergy_run (fun _ : Unit => ()) (fun _ => (0 : ℚ)) (fun _ _ => 0) (fun _ _ => ())
        (fun (c : Unit) _ _ _ _ => (c, false)) 0 3
        ⟨(), (), 0, 0, false, 0, 0⟩).converged = false :=
  (CalcEnergy_scf_termination (fun _ : Unit => ()) (fun _ => (0 : ℚ)) (fun _ _ => 0)
    (fun _ _ => ()) (fun (c : Unit) _ _ _ _ => (c, false)) 0 3
    ⟨(), (), 0, 0, false, 0, 0⟩ rfl rfl).2.2.2 (fun _ _ _ _ _ => rfl) rfl

/-- C2: in one SCF loop body at index `i`, iterations 0 and 1 use the raw
newly built potential, any later iteration uses the blend
`mixfrac * v_new + (1 - mixfrac) * v_old`, and the potential actually fed
to the orbital update is exactly the one stored as `v_s_old` for the next
cycle. -/
theorem scfStep_potential_mixing {O D C : Type} (dens : O → D) (potv : D → ℚ)
    (energyF : O → D → ℚ) (compute : O → ℚ → O)
    (convCheck : C → ℚ → ℚ → D → ℕ → C × Bool) (mixfrac : ℚ)
    (i : ℕ) (s : SCFState O C) :
    (i ≤ 1 →
      (scfStep dens potv energyF compute convCheck mixfrac i s).vsOld = potv (dens s.orbs))
    ∧ (1 < i →
      (scfStep dens potv energyF compute convCheck mixfrac i s).vsOld
        = mixfrac * potv (dens s.orbs) + (1 - mixfrac) * s.vsOld)
    ∧ (scfStep dens potv energyF compute convCheck mixfrac i s).orbs
        = compute s.orbs
            ((scfStep dens potv energyF compute convCheck mixfrac i s).vsOld) := by
  refine ⟨fun h => ?_, fun h => ?_, ?_⟩
  · simp only [scfStep]
    rw [if_neg (by omega)]
  · simp only [scfStep]
    rw [if_pos (by omega)]
  · simp only [scfStep]

/-- Witness for `scfStep_potential_mixing`: with a new potential of 4, a
previous potential of 8 and mixing fraction 1/4, iteration index 2 uses
the blend `1/4 * 4 + 3/4 * 8 = 7` while iteration index 0 uses the raw 4. -/
theorem scfStep_potential_mixing_witness :
    (scfStep (fun _ : Unit => ()) (fun _ => (4 : ℚ)) (fun _ _ => 0) (fun _ _ => ())
        (fun (c : Unit) _ _ _ _ => (c, false)) (1/4) 2
        ⟨(), (), 8, 0, false, 0, 0⟩).vsOld = 7
    ∧ (scfStep (fun _ : Unit => ()) (fun _ => (4 : ℚ)) (fun _ _ => 0) (fun _ _ => ())
        (fun (c : Unit) _ _ _ _ => (c, false)) (1/4) 0
        ⟨(), (), 8, 0, false, 0, 0⟩).vsOld = 4 := by
  constructor
  · have h := (scfStep_potential_mixing (fun _ : Unit => ()) (fun _ => (4 : ℚ)) (fun _ _ => 0)
      (fun _ _ => ()) (fun (c : Unit) _ _ _ _ => (c, false)) (1/4) 2
      ⟨(), (), 8, 0, false, 0, 0⟩).2.1 (by norm_num)
    rw [h]
    norm_num
  · exact (scfStep_potential_mixing (fun _ : Unit => ()) (fun _ => (4 : ℚ)) (fun _ _ => 0)
      (fun _ _ => ()) (fun (c : Unit) _ _ _ _ => (c, false)) (1/4) 0
      ⟨(), (), 8, 0, false, 0, 0⟩).1 (by norm_num)

/-! ## Branch lemmas for `check_rad_dens_init` (units "bohr", so the unit
conversion is the identity) -/

theorem conv_radius_bohr (ang r : ℝ) : conv_radius ang r "bohr" = r := by
  unfold conv_radius
  rw [if_neg]
  simp

/-- Radius supplied, density sentinel, radius above threshold: the density
is derived from the radius. -/
theorem crdi_radius_only_ok (ang mp cm m r : ℝ) (hr : r ≠ -1) (h01 : ¬ r < 1/10) :
    check_rad_dens_init ang mp cm m r (-1) "bohr"
      = Except.ok (r, radius_to_dens mp cm m r) := by
  simp only [check_rad_dens_init, conv_radius_bohr]
  rw [if_pos ⟨trivial, hr⟩, if_neg h01]

/-- Radius supplied, density sentinel, radius below threshold: rejected. -/
theorem crdi_radius_only_err (ang mp cm m r : ℝ) (hr : r ≠ -1) (h01 : r < 1/10) :
    check_rad_dens_init ang mp cm m r (-1) "bohr"
      = Except.error (InputErr.densityError
          "Radius must be a positive number greater than 0.1") := by
  simp only [check_rad_dens_init, conv_radius_bohr]
  rw [if_pos ⟨trivial, hr⟩, if_pos h01]

/-- Density supplied, radius sentinel, density within the tested range: the
radius is derived from the density. -/
theorem crdi_density_only_ok (ang mp cm m d : ℝ) (hd : d ≠ -1) (hb : ¬ (d > 100 ∨ d < 0)) :
    check_rad_dens_init ang mp cm m (-1) d "bohr"
      = Except.ok (dens_to_radius mp cm m d, d) := by
  simp only [check_rad_dens_init, conv_radius_bohr]
  rw [if_neg (fun h => h.2 rfl), if_pos ⟨trivial, hd⟩, if_neg hb]

/-- Density supplied, radius sentinel, density out of range: rejected. -/
theorem crdi_density_only_err (ang mp cm m d : ℝ) (hd : d ≠ -1) (hb : d > 100 ∨ d < 0) :
    check_rad_dens_init ang mp cm m (-1) d "bohr"
      = Except.error (InputErr.densityError
          "Density must be a positive number less than 100") := by
  simp only [check_rad_dens_init, conv_radius_bohr]
  rw [if_neg (fun h => h.2 rfl), if_pos ⟨trivial, hd⟩, if_pos hb]

/-- Both supplied and compatible within 5% relative difference: the
radius-derived density is adopted. -/
theorem crdi_both_ok (ang mp cm m r d : ℝ) (hr : r ≠ -1) (hd : d ≠ -1)
    (ht : ¬ |(radius_to_dens mp cm m r - d) / d| > 5/100) :
    check_rad_dens_init ang mp cm m r d "bohr"
      = Except.ok (r, radius_to_dens mp cm m r) := by
  simp only [check_rad_dens_init, conv_radius_bohr]
  rw [if_neg (fun h => hd h.1), if_neg (fun h => hr h.1), if_pos ⟨hr, hd⟩, if_neg ht]

/-- Both supplied but differing by more than 5% relative difference:
rejected as incompatible. -/
theorem crdi_both_err (ang mp cm m r d : ℝ) (hr : r ≠ -1) (hd : d ≠ -1)
    (ht : |(radius_to_dens mp cm m r - d) / d| > 5/100) :
    check_rad_dens_init ang mp cm m r d "bohr"
      = Except.error (InputErr.densityError
          "Both radius and density are specified but they are not compatible") := by
  simp only [check_rad_dens_init, conv_radius_bohr]
  rw [if_neg (fun h => hd h.1), if_neg (fun h => hr h.1), if_pos ⟨hr, hd⟩, if_pos ht]

/-- Neither supplied: rejected. -/
theorem crdi_none (ang mp cm m : ℝ) :
    check_rad_dens_init ang mp cm m (-1) (-1) "bohr"
      = Except.error (InputErr.densityError
          "One of radius or density must be specified") := by
  simp only [check_rad_dens_init, conv_radius_bohr]
  rw [if_neg (fun h => h.2 rfl), if_neg (fun h => h.2 rfl), if_neg (fun h => h.1 rfl)]

/-- C3: the radius/density reconciler's case analysis — exactly one value
supplied (the other at the sentinel `-1`) derives the missing one through
the sphere-volume relation with the mass in grams, both supplied compares
the radius-derived density against the given one with a 5% relative
tolerance and adopts the radius-derived density on success, neither
supplied is an error. -/
theorem check_rad_dens_init_cases (ang mp cm m r d : ℝ) :
    (d = -1 → r ≠ -1 → 1/10 ≤ r →
      check_rad_dens_init ang mp cm m r d "bohr"
        = Except.ok (r, radius_to_dens mp cm m r))
    ∧ (r = -1 → d ≠ -1 → 0 ≤ d → d ≤ 100 →
      check_rad_dens_init ang mp cm m r d "bohr"
        = Except.ok (dens_to_radius mp cm m d, d))
    ∧ (r ≠ -1 → d ≠ -1 →
        (|(radius_to_dens mp cm m r - d) / d| > 5/100 →
          check_rad_dens_init ang mp cm m r d "bohr"
            = Except.error (InputErr.densityError
                "Both radius and density are specified but they are not compatible"))
        ∧ (|(radius_to_dens mp cm m r - d) / d| ≤ 5/100 →
          check_rad_dens_init ang mp cm m r d "bohr"
            = Except.ok (r, radius_to_dens mp cm m r)))
    ∧ (r = -1 → d = -1 →
      check_rad_dens_init ang mp cm m r d "bohr"
        = Except.error (InputErr.densityError
            "One of radius or density must be specified")) := by
  refine ⟨fun hd hr h01 => ?_, fun hr hd h0 h100 => ?_,
    fun hr hd => ⟨fun ht => ?_, fun ht => ?_⟩, fun hr hd => ?_⟩
  · subst hd
    exact crdi_radius_only_ok ang mp cm m r hr (not_lt.2 h01)
  · subst hr
    exact crdi_density_only_ok ang mp cm m d hd (by rintro (h | h) <;> linarith)
  · exact crdi_both_err ang mp cm m r d hr hd ht
  · exact crdi_both_ok ang mp cm m r d hr hd (not_lt.2 ht)
  · subst hr
    subst hd
    exact crdi_none ang mp cm m

/-- Witness for `check_rad_dens_init_cases`: radius 1 bohr with the density
sentinel succeeds and derives the density from the radius. -/
theorem check_rad_dens_init_cases_witness :
    check_rad_dens_init 1 1 1 1 1 (-1) "bohr"
      = Except.ok (1, radius_to_dens 1 1 1 1) :=
  (check_rad_dens_init_cases 1 1 1 1 1 (-1)).1 rfl (by norm_num) (by norm_num)

/-- The radius/density conversions are exact mutual inverses over `ℝ` for
positive mass, conversion constants and density. -/
theorem dens_radius_roundtrip_exact (mp cm m d : ℝ) (hmp : 0 < mp) (hcm : 0 < cm)
    (hm : 0 < m) (hd : 0 < d) :
    radius_to_dens mp cm m (dens_to_radius mp cm m d) = d := by
  have hpi : (0 : ℝ) < Real.pi := Real.pi_pos
  have hx : (0 : ℝ) < 3 * (mp * m / d) / (4 * Real.pi) := by positivity
  have hcube : ((3 * (mp * m / d) / (4 * Real.pi)) ^ ((1 : ℝ)/3)) ^ (3 : ℕ)
      = 3 * (mp * m / d) / (4 * Real.pi) := by
    rw [← Real.rpow_natCast ((3 * (mp * m / d) / (4 * Real.pi)) ^ ((1 : ℝ)/3)) 3,
      ← Real.rpow_mul hx.le]
    norm_num
  simp only [radius_to_dens, dens_to_radius]
  have h1 : (3 * (mp * m / d) / (4 * Real.pi)) ^ ((1 : ℝ)/3) * cm / cm
      = (3 * (mp * m / d) / (4 * Real.pi)) ^ ((1 : ℝ)/3) := by
    field_simp
  rw [h1, hcube]
  field_simp
  ring

/-- C4: converting a valid density (positive, at most 100) to a radius and
back yields the density again, well within the 1e-9 relative tolerance —
the round trip is in fact exact over `ℝ`. -/
theorem radius_dens_roundtrip_tol (mp cm m d : ℝ) (hmp : 0 < mp) (hcm : 0 < cm)
    (hm : 0 < m) (hd : 0 < d) (_hd100 : d ≤ 100) :
    |radius_to_dens mp cm m (dens_to_radius mp cm m d) - d| ≤ 1/10^9 * d := by
  rw [dens_radius_roundtrip_exact mp cm m d hmp hcm hm hd]
  rw [sub_self, abs_zero]
  positivity

/-- Witness for `radius_dens_roundtrip_tol` at unit constants and density 1. -/
theorem radius_dens_roundtrip_tol_witness :
    |radius_to_dens 1 1 1 (dens_to_radius 1 1 1 1) - 1| ≤ 1/10^9 * 1 :=
  radius_dens_roundtrip_tol 1 1 1 1 (by norm_num) (by norm_num) (by norm_num)
    (by norm_num) (by norm_num)

/-- Inversion lemma: every successful run of `check_rad_dens_init` (bohr
units) comes from one of its three accepting branches, with the returned
pair determined by the branch. -/
theorem crdi_ok_inv (ang mp cm m r d rO dO : ℝ)
    (h : check_rad_dens_init ang mp cm m r d "bohr" = Except.ok (rO, dO)) :
    (d = -1 ∧ r ≠ -1 ∧ ¬ r < 1/10 ∧ rO = r ∧ dO = radius_to_dens mp cm m r)
    ∨ (r = -1 ∧ d ≠ -1 ∧ ¬ (d > 100 ∨ d < 0) ∧ rO = dens_to_radius mp cm m d ∧ dO = d)
    ∨ (r ≠ -1 ∧ d ≠ -1 ∧ rO = r ∧ dO = radius_to_dens mp cm m r) := by
  by_cases hd : d = -1 <;> by_cases hr : r = -1
  · subst hd
    subst hr
    rw [crdi_none] at h
    exact Except.noConfusion h
  · subst hd
    by_cases h01 : r < 1/10
    · rw [crdi_radius_only_err ang mp cm m r hr h01] at h
      exact Except.noConfusion h
    · rw [crdi_radius_only_ok ang mp cm m r hr h01] at h
      obtain ⟨h1, h2⟩ := Prod.mk.injEq .. ▸ Except.ok.inj h
      exact Or.inl ⟨rfl, hr, h01, h1.symm, h2.symm⟩
  · subst hr
    by_cases hb : d > 100 ∨ d < 0
    · rw [crdi_density_only_err ang mp cm m d hd hb] at h
      exact Except.noConfusion h
    · rw [crdi_density_only_ok ang mp cm m d hd hb] at h
      obtain ⟨h1, h2⟩ := Prod.mk.injEq .. ▸ Except.ok.inj h
      exact Or.inr (Or.inl ⟨rfl, hd, hb, h1.symm, h2.symm⟩)
  · by_cases ht : |(radius_to_dens mp cm m r - d) / d| > 5/100
    · rw [crdi_both_err ang mp cm m r d hr hd ht] at h
      exact Except.noConfusion h
    · rw [crdi_both_ok ang mp cm m r d hr hd ht] at h
      obtain ⟨h1, h2⟩ := Prod.mk.injEq .. ▸ Except.ok.inj h
      exact Or.inr (Or.inr ⟨hr, hd, h1.symm, h2.symm⟩)

/-- C7, counterexample: a supplied radius of exactly 0.1 (density at the
sentinel) passes validation — the source rejects only `radius < 0.1` — and
the returned radius is exactly 0.1, which does NOT exceed the 0.1
threshold as the claim requires. -/
theorem check_rad_dens_radius_boundary_cex :
    check_rad_dens_init 1 1 1 1 (1/10) (-1) "bohr"
      = Except.ok (1/10, radius_to_dens 1 1 1 (1/10))
    ∧ ¬ ((1/10 : ℝ) > 1/10) := by
  constructor
  · exact crdi_radius_only_ok 1 1 1 1 (1/10) (by norm_num) (by norm_num)
  · norm_num

/-- C7, amended: on success with only the radius supplied the returned
radius is AT LEAST 0.1 (sub-threshold supplied radii fail with
`density_error`), and on success with only the density supplied the
returned density lies in `[0, 100]` (supplied densities outside that range
fail with `density_error`); the bounds are checked only on supplied
values — neither derived values nor the both-supplied branch are
re-checked. -/
theorem check_rad_dens_bounds (ang mp cm m r d : ℝ) :
    (∀ rO dO, check_rad_dens_init ang mp cm m r d "bohr" = Except.ok (rO, dO) →
      (d = -1 → 1/10 ≤ rO) ∧ (r = -1 → 0 ≤ dO ∧ dO ≤ 100))
    ∧ (d = -1 → r ≠ -1 → r < 1/10 →
        check_rad_dens_init ang mp cm m r d "bohr"
          = Except.error (InputErr.densityError
              "Radius must be a positive number greater than 0.1"))
    ∧ (r = -1 → d ≠ -1 → (d > 100 ∨ d < 0) →
        check_rad_dens_init ang mp cm m r d "bohr"
          = Except.error (InputErr.densityError
              "Density must be a positive number less than 100")) := by
  refine ⟨fun rO dO h => ?_, fun hd hr h01 => ?_, fun hr hd hb => ?_⟩
  · rcases crdi_ok_inv ang mp cm m r d rO dO h with
      ⟨hd, hr, h01, hrO, hdO⟩ | ⟨hr, hd, hb, hrO, hdO⟩ | ⟨hr, hd, hrO, hdO⟩
    · refine ⟨fun _ => ?_, fun hrr => absurd hrr hr⟩
      rw [hrO]
      linarith [not_lt.1 h01]
    · refine ⟨fun hdd => absurd hdd hd, fun _ => ?_⟩
      push_neg at hb
      rw [hdO]
      exact ⟨hb.2, hb.1⟩
    · exact ⟨fun hdd => absurd hdd hd, fun hrr => absurd hrr hr⟩
  · subst hd
    exact crdi_radius_only_err ang mp cm m r hr h01
  · subst hr
    exact crdi_density_only_err ang mp cm m d hd hb

/-- Witness for `check_rad_dens_bounds`: a supplied radius of 0.05 with the
density sentinel fails with the radius bound error. -/
theorem check_rad_dens_bounds_witness :
    check_rad_dens_init 1 1 1 1 (1/20) (-1) "bohr"
      = Except.error (InputErr.densityError
          "Radius must be a positive number greater than 0.1") :=
  (check_rad_dens_bounds 1 1 1 1 (1/20) (-1)).2.1 rfl (by norm_num) (by norm_num)
